import Mathlib

/-!
Shallow embedding of the JarvisBot Arduino sketch (`jarvis.ino`): a serial
command dispatcher, an L298N motor driver interface, a blink-timer face
animation state machine, and SSD1306 draw routines.  Hardware effects are
modelled explicitly: motor pin levels as a record, display operations and
serial prints as traces.
-/

namespace JarvisBot

/-- L298N pin constants, as in the sketch header. -/
def ENA : Nat := 5

def IN1 : Nat := 7

def IN2 : Nat := 8

def ENB : Nat := 6

def IN3 : Nat := 9

def IN4 : Nat := 10

def SCREEN_WIDTH : Nat := 128

def SCREEN_HEIGHT : Nat := 64

/-- Digital pin level, as written by `digitalWrite`. -/
inductive PinLevel
  | LOW
  | HIGH
deriving DecidableEq, Repr

/-- The six motor outputs: PWM duty cycles on ENA/ENB (written by
`analogWrite`) and the four H-bridge direction pins IN1..IN4. -/
structure MotorPins where
  ena : Nat
  in1 : PinLevel
  in2 : PinLevel
  enb : Nat
  in3 : PinLevel
  in4 : PinLevel
deriving DecidableEq, Repr

/-- A single hardware write performed by a motor routine. -/
inductive MotorWrite
  | analogWrite (pin : Nat) (val : Nat)
  | digitalWrite (pin : Nat) (level : PinLevel)
deriving DecidableEq, Repr

/-- Effect of one write on the motor pin state, keyed by the pin constants. -/
def applyWrite (m : MotorPins) : MotorWrite → MotorPins
  | .analogWrite p v =>
      if p = ENA then { m with ena := v }
      else if p = ENB then { m with enb := v }
      else m
  | .digitalWrite p l =>
      if p = IN1 then { m with in1 := l }
      else if p = IN2 then { m with in2 := l }
      else if p = IN3 then { m with in3 := l }
      else if p = IN4 then { m with in4 := l }
      else m

def applyWrites (m : MotorPins) (ws : List MotorWrite) : MotorPins :=
  ws.foldl applyWrite m

/-- Write sequence of `forward()` (lines 141-153). -/
def forwardWrites : List MotorWrite :=
  [.analogWrite ENA 200, .analogWrite ENB 200,
   .digitalWrite IN1 .HIGH, .digitalWrite IN2 .LOW,
   .digitalWrite IN3 .HIGH, .digitalWrite IN4 .LOW]

/-- Write sequence of `backward()` (lines 155-166). -/
def backwardWrites : List MotorWrite :=
  [.analogWrite ENA 200, .analogWrite ENB 200,
   .digitalWrite IN1 .LOW, .digitalWrite IN2 .HIGH,
   .digitalWrite IN3 .LOW, .digitalWrite IN4 .HIGH]

/-- Write sequence of `leftTurn()` (lines 168-181). -/
def leftTurnWrites : List MotorWrite :=
  [.analogWrite ENA 180, .analogWrite ENB 180,
   .digitalWrite IN1 .LOW, .digitalWrite IN2 .HIGH,
   .digitalWrite IN3 .HIGH, .digitalWrite IN4 .LOW]

/-- Write sequence of `rightTurn()` (lines 183-196). -/
def rightTurnWrites : List MotorWrite :=
  [.analogWrite ENA 180, .analogWrite ENB 180,
   .digitalWrite IN1 .HIGH, .digitalWrite IN2 .LOW,
   .digitalWrite IN3 .LOW, .digitalWrite IN4 .HIGH]

/-- Write sequence of `stopMotors()` (lines 198-209). -/
def stopMotorsWrites : List MotorWrite :=
  [.analogWrite ENA 0, .analogWrite ENB 0,
   .digitalWrite IN1 .LOW, .digitalWrite IN2 .LOW,
   .digitalWrite IN3 .LOW, .digitalWrite IN4 .LOW]

def forward (m : MotorPins) : MotorPins := applyWrites m forwardWrites

def backward (m : MotorPins) : MotorPins := applyWrites m backwardWrites

def leftTurn (m : MotorPins) : MotorPins := applyWrites m leftTurnWrites

def rightTurn (m : MotorPins) : MotorPins := applyWrites m rightTurnWrites

def stopMotors (m : MotorPins) : MotorPins := applyWrites m stopMotorsWrites

/-- Abstract direction value encoded by one H-bridge pin pair; `none` means
the ill-formed both-HIGH configuration. -/
inductive MotorDirection
  | Forward
  | Reverse
  | Neutral
deriving DecidableEq, Repr

def pairDirection : PinLevel → PinLevel → Option MotorDirection
  | .HIGH, .LOW => some .Forward
  | .LOW, .HIGH => some .Reverse
  | .LOW, .LOW => some .Neutral
  | .HIGH, .HIGH => none

/-- Left motor output as (direction, magnitude): pins IN1/IN2, duty ENA. -/
def leftOutput (m : MotorPins) : Option MotorDirection × Nat :=
  (pairDirection m.in1 m.in2, m.ena)

/-- Right motor output as (direction, magnitude): pins IN3/IN4, duty ENB. -/
def rightOutput (m : MotorPins) : Option MotorDirection × Nat :=
  (pairDirection m.in3 m.in4, m.enb)

/-- `enum FaceMode` of the sketch. -/
inductive FaceMode
  | FACE_BLINK
  | FACE_THINK
deriving DecidableEq, Repr

/-- One display operation issued to the Adafruit_SSD1306 buffer; `flush`
models `display.display()`. -/
inductive DispCmd
  | clearDisplay
  | fillRect (x y w h : Nat)
  | fillCircle (x y r : Nat)
  | flush
deriving DecidableEq, Repr

def BLINK_OPEN_DURATION : Nat := 3000

def BLINK_CLOSED_DURATION : Nat := 200

/-- `unsigned long` truncation: Arduino AVR unsigned long is 32 bits. -/
def u32 (n : Nat) : Nat := n % 4294967296

/-- 32-bit wraparound subtraction, as in `now - lastBlinkChange`. -/
def u32sub (a b : Nat) : Nat := (u32 a + 4294967296 - u32 b) % 4294967296

/-- The mutable globals of the sketch: motor pin state, `currentFace`,
`blinkOpen`, `lastBlinkChange`. -/
structure RobotState where
  motors : MotorPins
  currentFace : FaceMode
  blinkOpen : Bool
  lastBlinkChange : Nat
deriving DecidableEq, Repr

/-- `drawBlinkFace(bool open)` (lines 237-251): clear, two eye rectangles
whose geometry depends on the phase, then flush. -/
def drawBlinkFace (o : Bool) : List DispCmd :=
  DispCmd.clearDisplay ::
    (if o then
      [DispCmd.fillRect 30 20 20 20, DispCmd.fillRect 80 20 20 20]
    else
      [DispCmd.fillRect 30 27 20 6, DispCmd.fillRect 80 27 20 6]) ++
    [DispCmd.flush]

/-- `drawFace(FaceMode mode)` (lines 215-235): clears, then for blink mode
delegates to `drawBlinkFace` (which clears again, draws and flushes), and
for think mode draws two eye rectangles and three dots and flushes.  The
second argument models the global `blinkOpen` read in the blink branch. -/
def drawFace (mode : FaceMode) (blinkOpen : Bool) : List DispCmd :=
  DispCmd.clearDisplay ::
    (match mode with
     | .FACE_BLINK => drawBlinkFace blinkOpen
     | .FACE_THINK =>
        [DispCmd.fillRect 30 22 16 16, DispCmd.fillRect 82 22 16 16,
         DispCmd.fillCircle 48 50 4, DispCmd.fillCircle 64 50 4,
         DispCmd.fillCircle 80 50 4, DispCmd.flush])

/-- The `switch (cmd)` dispatcher in `loop()` (lines 80-121).  `now` is the
value `millis()` would return inside the handler (used only by case `O`).
Returns the new state, serial lines printed, and display operations issued. -/
def dispatch (cmd : Char) (now : Nat) (s : RobotState) :
    RobotState × List String × List DispCmd :=
  if cmd = 'B' then ({ s with motors := forward s.motors }, ["Forward ➡️"], [])
  else if cmd = 'F' then
    ({ s with motors := backward s.motors }, ["Backward ⬅️"], [])
  else if cmd = 'R' then
    ({ s with motors := leftTurn s.motors }, ["Left ↪️"], [])
  else if cmd = 'L' then
    ({ s with motors := rightTurn s.motors }, ["Right ↩️"], [])
  else if cmd = 'S' then
    ({ s with motors := stopMotors s.motors }, ["Stop 🛑"], [])
  else if cmd = 'O' then
    ({ s with currentFace := .FACE_BLINK, blinkOpen := true,
              lastBlinkChange := u32 now },
     ["Face → Blinking 👀✨"], drawFace .FACE_BLINK true)
  else if cmd = 'T' then
    ({ s with currentFace := .FACE_THINK },
     ["Face → Thinking 🤔"], drawFace .FACE_THINK s.blinkOpen)
  else (s, ["Unknown command 😅 (F B L R S | O T)"], [])

/-- The blinking logic at the end of `loop()` (lines 124-134): only in
blink mode, if `now - lastBlinkChange` (32-bit wraparound) has reached the
phase's duration, toggle the phase, record `now`, and redraw. -/
def blinkLogic (now : Nat) (s : RobotState) : RobotState × List DispCmd :=
  if s.currentFace = .FACE_BLINK then
    if (if s.blinkOpen then BLINK_OPEN_DURATION else BLINK_CLOSED_DURATION) ≤
        u32sub now s.lastBlinkChange then
      ({ s with blinkOpen := !s.blinkOpen, lastBlinkChange := u32 now },
       drawBlinkFace !s.blinkOpen)
    else (s, [])
  else (s, [])

/-- One iteration of `loop()` (lines 75-135): if a byte is buffered
(`Serial.available()`), exactly one byte is read and dispatched; then the
blinking logic runs.  `nowCmd` and `nowPoll` are the two `millis()` reads
(in the `O` handler and in the blink logic).  Returns the remaining input
queue, the new state, serial lines, and display operations in order. -/
def loopIter (queue : List Char) (nowCmd nowPoll : Nat) (s : RobotState) :
    List Char × RobotState × List String × List DispCmd :=
  match queue with
  | [] => ([], (blinkLogic nowPoll s).1, [], (blinkLogic nowPoll s).2)
  | c :: rest =>
      let r1 := dispatch c nowCmd s
      let r2 := blinkLogic nowPoll r1.1
      (rest, r2.1, r1.2.1, r1.2.2 ++ r2.2)

/-- Outcome of `setup()`: either the infinite `for (;;);` halt after a
failed `display.begin`, or a running system about to enter `loop()`. -/
inductive SetupResult
  | halted (motors : MotorPins) (lines : List String)
  | running (s : RobotState) (lines : List String) (disp : List DispCmd)
deriving DecidableEq, Repr

def startupLines : List String :=
  ["🤖 READY!", "Motor controls: F B L R S", "Face controls: O (blink), T (think)"]

/-- `setup()` (lines 44-73): configure pins, `stopMotors()`, then
`display.begin`; on failure print and halt forever; on success clear the
display, set blink mode with a fresh timer, draw the face, print the
banner.  `m0` is the power-on pin state, `displayOk` the result of
`display.begin`, `now` the `millis()` read. -/
def setup (m0 : MotorPins) (displayOk : Bool) (now : Nat) : SetupResult :=
  if displayOk then
    .running ⟨stopMotors m0, .FACE_BLINK, true, u32 now⟩
      (["Stop 🛑"] ++ startupLines)
      (DispCmd.clearDisplay :: drawFace .FACE_BLINK true)
  else
    .halted (stopMotors m0) ["Stop 🛑", "SSD1306 failed 😵"]

/-- One scheduler step of the whole system: a halted system (`for (;;);`)
consumes no input and changes nothing; a running system executes one
`loop()` iteration, accumulating its serial and display traces. -/
def systemStep (r : SetupResult) (queue : List Char) (nowCmd nowPoll : Nat) :
    SetupResult × List Char :=
  match r with
  | .halted m lines => (.halted m lines, queue)
  | .running s lines disp =>
      let it := loopIter queue nowCmd nowPoll s
      (.running it.2.1 (lines ++ it.2.2.1) (disp ++ it.2.2.2), it.1)

/-- Motor pin states reachable in the sketch: `setup()` runs `stopMotors`
before the loop, and thereafter only the five motor routines write pins. -/
inductive ReachablePins : MotorPins → Prop
  | boot (m0 : MotorPins) : ReachablePins (stopMotors m0)
  | stepForward {m : MotorPins} : ReachablePins m → ReachablePins (forward m)
  | stepBackward {m : MotorPins} : ReachablePins m → ReachablePins (backward m)
  | stepLeft {m : MotorPins} : ReachablePins m → ReachablePins (leftTurn m)
  | stepRight {m : MotorPins} : ReachablePins m → ReachablePins (rightTurn m)
  | stepStop {m : MotorPins} : ReachablePins m → ReachablePins (stopMotors m)

/-- Shape list the spec prescribes per state: two eye regions sized and
positioned per phase for Blinking; two eye blocks plus three dots for
Thinking.  Stated from the spec's render contract, to be compared with the
trace `drawFace` actually produces. -/
def stateShapes : FaceMode → Bool → List DispCmd
  | .FACE_BLINK, true =>
      [DispCmd.fillRect 30 20 20 20, DispCmd.fillRect 80 20 20 20]
  | .FACE_BLINK, false =>
      [DispCmd.fillRect 30 27 20 6, DispCmd.fillRect 80 27 20 6]
  | .FACE_THINK, _ =>
      [DispCmd.fillRect 30 22 16 16, DispCmd.fillRect 82 22 16 16,
       DispCmd.fillCircle 48 50 4, DispCmd.fillCircle 64 50 4,
       DispCmd.fillCircle 80 50 4]

/-- Number of buffer clears a `drawFace` redraw performs: the blink branch
clears in `drawFace` and again inside `drawBlinkFace`. -/
def clearCount : FaceMode → Nat
  | .FACE_BLINK => 2
  | .FACE_THINK => 1

/-- C1: the dispatcher maps each protocol byte exactly per the table —
`F` runs the `backward` motor routine, `B` runs `forward`, `R` runs
`leftTurn`, `L` runs `rightTurn`, `S` runs `stopMotors`, `O` switches the
face to blinking, `T` to thinking, and any other byte triggers no motor or
face action (the F/B inversion is exactly as in the source). -/
theorem c1_dispatch_table (now : Nat) (s : RobotState) (c : Char)
    (h : c ∉ ['F', 'B', 'R', 'L', 'S', 'O', 'T']) :
    dispatch 'F' now s = ({ s with motors := backward s.motors }, ["Backward ⬅️"], []) ∧
    dispatch 'B' now s = ({ s with motors := forward s.motors }, ["Forward ➡️"], []) ∧
    dispatch 'R' now s = ({ s with motors := leftTurn s.motors }, ["Left ↪️"], []) ∧
    dispatch 'L' now s = ({ s with motors := rightTurn s.motors }, ["Right ↩️"], []) ∧
    dispatch 'S' now s = ({ s with motors := stopMotors s.motors }, ["Stop 🛑"], []) ∧
    dispatch 'O' now s =
      ({ s with currentFace := .FACE_BLINK, blinkOpen := true,
                lastBlinkChange := u32 now },
       ["Face → Blinking 👀✨"], drawFace .FACE_BLINK true) ∧
    dispatch 'T' now s =
      ({ s with currentFace := .FACE_THINK },
       ["Face → Thinking 🤔"], drawFace .FACE_THINK s.blinkOpen) ∧
    dispatch c now s = (s, ["Unknown command 😅 (F B L R S | O T)"], []) := by
  simp only [List.mem_cons, List.not_mem_nil, or_false, not_or] at h
  obtain ⟨hF, hB, hR, hL, hS, hO, hT⟩ := h
  refine ⟨rfl, rfl, rfl, rfl, rfl, rfl, rfl, ?_⟩
  simp only [dispatch, if_neg hB, if_neg hF, if_neg hR, if_neg hL, if_neg hS,
    if_neg hO, if_neg hT]

/-- Witness for C1 at a concrete state and the unrecognized byte `Z`. -/
theorem c1_dispatch_table_witness :
    dispatch 'Z' 0 ⟨⟨0, .LOW, .LOW, 0, .LOW, .LOW⟩, .FACE_BLINK, true, 0⟩ =
      (⟨⟨0, .LOW, .LOW, 0, .LOW, .LOW⟩, .FACE_BLINK, true, 0⟩,
       ["Unknown command 😅 (F B L R S | O T)"], []) :=
  (c1_dispatch_table 0 ⟨⟨0, .LOW, .LOW, 0, .LOW, .LOW⟩, .FACE_BLINK, true, 0⟩
    'Z' (by decide)).2.2.2.2.2.2.2

/-- C5: dispatching any byte outside the protocol set emits the
unrecognized-command report and leaves the whole state (motor pins, face
mode, blink phase, blink timer) unchanged, with no display operation. -/
theorem c5_unrecognized_no_state_change (now : Nat) (s : RobotState) (c : Char)
    (h : c ∉ ['F', 'B', 'R', 'L', 'S', 'O', 'T']) :
    dispatch c now s = (s, ["Unknown command 😅 (F B L R S | O T)"], []) := by
  simp only [List.mem_cons, List.not_mem_nil, or_false, not_or] at h
  obtain ⟨hF, hB, hR, hL, hS, hO, hT⟩ := h
  simp only [dispatch, if_neg hB, if_neg hF, if_neg hR, if_neg hL, if_neg hS,
    if_neg hO, if_neg hT]

/-- Witness for C5 at byte `Z` and a concrete thinking-mode state. -/
theorem c5_unrecognized_no_state_change_witness :
    dispatch 'Z' 7 ⟨⟨200, .HIGH, .LOW, 200, .HIGH, .LOW⟩, .FACE_THINK, false, 42⟩ =
      (⟨⟨200, .HIGH, .LOW, 200, .HIGH, .LOW⟩, .FACE_THINK, false, 42⟩,
       ["Unknown command 😅 (F B L R S | O T)"], []) :=
  c5_unrecognized_no_state_change 7
    ⟨⟨200, .HIGH, .LOW, 200, .HIGH, .LOW⟩, .FACE_THINK, false, 42⟩ 'Z' (by decide)

/-- C7: Stop is absorbing and idempotent — `stopMotors` followed by any
number of repeated `stopMotors` calls yields motor output (Neutral, 0) on
both sides every time. -/
theorem c7_stop_absorbing (m : MotorPins) (n : Nat) :
    leftOutput (stopMotors^[n] (stopMotors m)) = (some .Neutral, 0) ∧
    rightOutput (stopMotors^[n] (stopMotors m)) = (some .Neutral, 0) := by
  have hfix : stopMotors^[n] (stopMotors m) = stopMotors m := by
    have h1 : stopMotors m = ⟨0, .LOW, .LOW, 0, .LOW, .LOW⟩ := rfl
    rw [h1]
    exact Function.iterate_fixed rfl n
  rw [hfix]
  exact ⟨rfl, rfl⟩

/-- C8: every redraw first clears the frame buffer (twice on the blink
path, once on the think path), then draws exactly the fixed-geometry
shapes of the current state, then flushes; this holds for both redraw
entry points, `drawFace` and `drawBlinkFace`. -/
theorem c8_redraw_structure (mode : FaceMode) (o : Bool) :
    drawFace mode o =
      List.replicate (clearCount mode) DispCmd.clearDisplay ++
        stateShapes mode o ++ [DispCmd.flush] ∧
    drawBlinkFace o =
      [DispCmd.clearDisplay] ++ stateShapes .FACE_BLINK o ++ [DispCmd.flush] := by
  cases mode <;> cases o <;> exact ⟨rfl, rfl⟩

/-- C9: motor and face state are mutually framed — each motor command
leaves face mode, blink phase and blink timestamp unchanged, and each face
command leaves the motor pins (directions and speeds) unchanged. -/
theorem c9_motor_face_frame (now : Nat) (s : RobotState) :
    ((dispatch 'F' now s).1.currentFace = s.currentFace ∧
     (dispatch 'F' now s).1.blinkOpen = s.blinkOpen ∧
     (dispatch 'F' now s).1.lastBlinkChange = s.lastBlinkChange) ∧
    ((dispatch 'B' now s).1.currentFace = s.currentFace ∧
     (dispatch 'B' now s).1.blinkOpen = s.blinkOpen ∧
     (dispatch 'B' now s).1.lastBlinkChange = s.lastBlinkChange) ∧
    ((dispatch 'R' now s).1.currentFace = s.currentFace ∧
     (dispatch 'R' now s).1.blinkOpen = s.blinkOpen ∧
     (dispatch 'R' now s).1.lastBlinkChange = s.lastBlinkChange) ∧
    ((dispatch 'L' now s).1.currentFace = s.currentFace ∧
     (dispatch 'L' now s).1.blinkOpen = s.blinkOpen ∧
     (dispatch 'L' now s).1.lastBlinkChange = s.lastBlinkChange) ∧
    ((dispatch 'S' now s).1.currentFace = s.currentFace ∧
     (dispatch 'S' now s).1.blinkOpen = s.blinkOpen ∧
     (dispatch 'S' now s).1.lastBlinkChange = s.lastBlinkChange) ∧
    (dispatch 'O' now s).1.motors = s.motors ∧
    (dispatch 'T' now s).1.motors = s.motors :=
  ⟨⟨rfl, rfl, rfl⟩, ⟨rfl, rfl, rfl⟩, ⟨rfl, rfl, rfl⟩, ⟨rfl, rfl, rfl⟩,
   ⟨rfl, rfl, rfl⟩, rfl, rfl⟩

/-- C10: on every reachable motor pin state, each side's H-bridge pin pair
is in exactly one of (HIGH,LOW), (LOW,HIGH), (LOW,LOW) — never both HIGH —
so each side's direction decodes to a well-formed Forward, Reverse or
Neutral value. -/
theorem c10_pin_pair_invariant (m : MotorPins) (h : ReachablePins m) :
    (∃ d, pairDirection m.in1 m.in2 = some d) ∧
    (∃ d, pairDirection m.in3 m.in4 = some d) ∧
    ¬(m.in1 = .HIGH ∧ m.in2 = .HIGH) ∧ ¬(m.in3 = .HIGH ∧ m.in4 = .HIGH) := by
  induction h with
  | boot m0 =>
      exact ⟨⟨.Neutral, rfl⟩, ⟨.Neutral, rfl⟩,
        fun hc => PinLevel.noConfusion hc.1, fun hc => PinLevel.noConfusion hc.1⟩
  | stepForward _ _ =>
      exact ⟨⟨.Forward, rfl⟩, ⟨.Forward, rfl⟩,
        fun hc => PinLevel.noConfusion hc.2, fun hc => PinLevel.noConfusion hc.2⟩
  | stepBackward _ _ =>
      exact ⟨⟨.Reverse, rfl⟩, ⟨.Reverse, rfl⟩,
        fun hc => PinLevel.noConfusion hc.1, fun hc => PinLevel.noConfusion hc.1⟩
  | stepLeft _ _ =>
      exact ⟨⟨.Reverse, rfl⟩, ⟨.Forward, rfl⟩,
        fun hc => PinLevel.noConfusion hc.1, fun hc => PinLevel.noConfusion hc.2⟩
  | stepRight _ _ =>
      exact ⟨⟨.Forward, rfl⟩, ⟨.Reverse, rfl⟩,
        fun hc => PinLevel.noConfusion hc.2, fun hc => PinLevel.noConfusion hc.1⟩
  | stepStop _ _ =>
      exact ⟨⟨.Neutral, rfl⟩, ⟨.Neutral, rfl⟩,
        fun hc => PinLevel.noConfusion hc.1, fun hc => PinLevel.noConfusion hc.1⟩

/-- Witness for C10 at the reachable state `stopMotors` of an arbitrary
ill-formed power-on state. -/
theorem c10_pin_pair_invariant_witness :
    (∃ d, pairDirection (stopMotors ⟨200, .HIGH, .HIGH, 200, .HIGH, .HIGH⟩).in1
        (stopMotors ⟨200, .HIGH, .HIGH, 200, .HIGH, .HIGH⟩).in2 = some d) ∧
    (∃ d, pairDirection (stopMotors ⟨200, .HIGH, .HIGH, 200, .HIGH, .HIGH⟩).in3
        (stopMotors ⟨200, .HIGH, .HIGH, 200, .HIGH, .HIGH⟩).in4 = some d) ∧
    ¬((stopMotors ⟨200, .HIGH, .HIGH, 200, .HIGH, .HIGH⟩).in1 = .HIGH ∧
      (stopMotors ⟨200, .HIGH, .HIGH, 200, .HIGH, .HIGH⟩).in2 = .HIGH) ∧
    ¬((stopMotors ⟨200, .HIGH, .HIGH, 200, .HIGH, .HIGH⟩).in3 = .HIGH ∧
      (stopMotors ⟨200, .HIGH, .HIGH, 200, .HIGH, .HIGH⟩).in4 = .HIGH) :=
  c10_pin_pair_invariant _
    (ReachablePins.boot ⟨200, .HIGH, .HIGH, 200, .HIGH, .HIGH⟩)

/-- When the minuend is in 32-bit range and at least the subtrahend,
wraparound subtraction agrees with truncated subtraction. -/
theorem u32sub_eq_sub (a b : Nat) (hb : b ≤ a) (ha : a < 4294967296) :
    u32sub a b = a - b := by
  unfold u32sub u32
  omega

/-- C2: the animation tick meets the poll contract — in blink mode, poll
flips the phase, records `now` and redraws exactly when the elapsed time
has reached 3000 ms (eyes open) or 200 ms (eyes closed), and otherwise
changes nothing; in think mode poll changes nothing. -/
theorem c2_poll_contract (now : Nat) (s : RobotState)
    (hle : s.lastBlinkChange ≤ now) (hnow : now < 4294967296) :
    (s.currentFace = .FACE_THINK → blinkLogic now s = (s, [])) ∧
    (s.currentFace = .FACE_BLINK →
      (((if s.blinkOpen then BLINK_OPEN_DURATION else BLINK_CLOSED_DURATION) ≤
          now - s.lastBlinkChange →
        blinkLogic now s =
          ({ s with blinkOpen := !s.blinkOpen, lastBlinkChange := now },
           drawBlinkFace !s.blinkOpen)) ∧
       (now - s.lastBlinkChange <
          (if s.blinkOpen then BLINK_OPEN_DURATION else BLINK_CLOSED_DURATION) →
        blinkLogic now s = (s, [])))) := by
  have hsub : u32sub now s.lastBlinkChange = now - s.lastBlinkChange :=
    u32sub_eq_sub now s.lastBlinkChange hle hnow
  have hu : u32 now = now := Nat.mod_eq_of_lt hnow
  refine ⟨fun hth => ?_, fun hbl => ⟨fun hge => ?_, fun hlt => ?_⟩⟩
  · unfold blinkLogic
    rw [hth]
    simp
  · unfold blinkLogic
    rw [hbl, hsub, hu, if_pos rfl, if_pos hge]
  · unfold blinkLogic
    rw [hbl, hsub, if_pos rfl, if_neg (Nat.not_le.mpr hlt)]

/-- Witness for C2: the spec's blink scenario — entering Blinking with
eyes open at now = 0, poll(2999) changes nothing, poll(3000) flips to
eyes closed, poll(3199) changes nothing, poll(3200) flips back open. -/
theorem c2_poll_contract_witness :
    blinkLogic 2999 ⟨⟨0, .LOW, .LOW, 0, .LOW, .LOW⟩, .FACE_BLINK, true, 0⟩ =
      (⟨⟨0, .LOW, .LOW, 0, .LOW, .LOW⟩, .FACE_BLINK, true, 0⟩, []) ∧
    blinkLogic 3000 ⟨⟨0, .LOW, .LOW, 0, .LOW, .LOW⟩, .FACE_BLINK, true, 0⟩ =
      (⟨⟨0, .LOW, .LOW, 0, .LOW, .LOW⟩, .FACE_BLINK, false, 3000⟩,
       drawBlinkFace false) ∧
    blinkLogic 3199 ⟨⟨0, .LOW, .LOW, 0, .LOW, .LOW⟩, .FACE_BLINK, false, 3000⟩ =
      (⟨⟨0, .LOW, .LOW, 0, .LOW, .LOW⟩, .FACE_BLINK, false, 3000⟩, []) ∧
    blinkLogic 3200 ⟨⟨0, .LOW, .LOW, 0, .LOW, .LOW⟩, .FACE_BLINK, false, 3000⟩ =
      (⟨⟨0, .LOW, .LOW, 0, .LOW, .LOW⟩, .FACE_BLINK, true, 3200⟩,
       drawBlinkFace true) := by
  refine ⟨?_, ?_, ?_, ?_⟩
  · exact ((c2_poll_contract 2999
      ⟨⟨0, .LOW, .LOW, 0, .LOW, .LOW⟩, .FACE_BLINK, true, 0⟩
      (by decide) (by decide)).2 rfl).2 (by decide)
  · exact ((c2_poll_contract 3000
      ⟨⟨0, .LOW, .LOW, 0, .LOW, .LOW⟩, .FACE_BLINK, true, 0⟩
      (by decide) (by decide)).2 rfl).1 (by decide)
  · exact ((c2_poll_contract 3199
      ⟨⟨0, .LOW, .LOW, 0, .LOW, .LOW⟩, .FACE_BLINK, false, 3000⟩
      (by decide) (by decide)).2 rfl).2 (by decide)
  · exact ((c2_poll_contract 3200
      ⟨⟨0, .LOW, .LOW, 0, .LOW, .LOW⟩, .FACE_BLINK, false, 3000⟩
      (by decide) (by decide)).2 rfl).1 (by decide)

/-- C3: startup first puts the motors in the Stop state, then checks the
display; a failed display init halts the system with the motors stopped
and every subsequent scheduler step consumes nothing and changes nothing;
a successful init enters Blinking with eyes open and a fresh timer and
renders the face before the loop. -/
theorem c3_startup (m0 : MotorPins) (now : Nat) (queue : List Char)
    (n1 n2 : Nat) :
    setup m0 false now = .halted (stopMotors m0) ["Stop 🛑", "SSD1306 failed 😵"] ∧
    systemStep (setup m0 false now) queue n1 n2 = (setup m0 false now, queue) ∧
    setup m0 true now =
      .running ⟨stopMotors m0, .FACE_BLINK, true, u32 now⟩
        (["Stop 🛑"] ++ startupLines)
        (DispCmd.clearDisplay :: drawFace .FACE_BLINK true) ∧
    leftOutput (stopMotors m0) = (some .Neutral, 0) ∧
    rightOutput (stopMotors m0) = (some .Neutral, 0) :=
  ⟨rfl, rfl, rfl, rfl, rfl⟩

/-- C4: in every loop iteration, an empty input queue means the dispatcher
does nothing and only the animation poll runs; a non-empty queue has
exactly its head consumed and dispatched, and the animation poll runs on
the state the dispatch produced — dispatch strictly before poll. -/
theorem c4_loop_ordering (nowCmd nowPoll : Nat) (s : RobotState) (c : Char)
    (rest : List Char) :
    loopIter [] nowCmd nowPoll s =
      ([], (blinkLogic nowPoll s).1, [], (blinkLogic nowPoll s).2) ∧
    loopIter (c :: rest) nowCmd nowPoll s =
      (rest, (blinkLogic nowPoll (dispatch c nowCmd s).1).1,
       (dispatch c nowCmd s).2.1,
       (dispatch c nowCmd s).2.2 ++ (blinkLogic nowPoll (dispatch c nowCmd s).1).2) :=
  ⟨rfl, rfl⟩

/-- C6: the `O` command puts the face in Blinking with eyes open, resets
the blink timer to `now`, and redraws immediately; repeating `O` at the
same instant is idempotent on the state; and polling at the reset instant
does nothing, so the 3000 ms/200 ms cycle restarts from that `now`. -/
theorem c6_blink_mode_reset (now : Nat) (s : RobotState) :
    dispatch 'O' now s =
      ({ s with currentFace := .FACE_BLINK, blinkOpen := true,
                lastBlinkChange := u32 now },
       ["Face → Blinking 👀✨"], drawFace .FACE_BLINK true) ∧
    (dispatch 'O' now (dispatch 'O' now s).1).1 = (dispatch 'O' now s).1 ∧
    blinkLogic now (dispatch 'O' now s).1 = ((dispatch 'O' now s).1, []) := by
  have h0 : u32sub now (u32 now) = 0 := by
    unfold u32sub u32
    omega
  have key : blinkLogic now
      ({ s with currentFace := .FACE_BLINK, blinkOpen := true,
                lastBlinkChange := u32 now }) =
      ({ s with currentFace := .FACE_BLINK, blinkOpen := true,
                lastBlinkChange := u32 now }, []) := by
    unfold blinkLogic
    simp [h0, BLINK_OPEN_DURATION]
  exact ⟨rfl, rfl, key⟩

end JarvisBot
